import Mathlib

/-!
Verification development for `training/train_sentiment_model.py` from the
repository `CSharp-Covariance-Polymorphism-Exercises`
(sample `MicroVideoPlatform.Analytics.Function`).

The script is a linear pipeline: build a fixed 30-example labelled dataset,
split it 80/20 with seed 42, fit a TF-IDF vectorizer on the training texts,
fit a logistic-regression classifier, evaluate (accuracy, report, confusion
matrix), persist two .pkl artifacts, run four demo predictions, and attempt
an optional ONNX export guarded by `except ImportError`.

The script's own control flow, data, constants and effect order are embedded
directly.  The scikit-learn library calls are external dependencies that are
not part of the repository's sources; where a claim is decided by their
documented behaviour, that behaviour is modelled from the specification
(each such definition carries a `Modelled from the spec:` doc comment) and
the library functions that only pass data through the pipeline are kept
opaque parameters of an environment structure.
-/

/-- The fixed literal training dataset of the script: 30 `(text, label)`
pairs, labels `1` = positive, `0` = negative (source lines 28-62). -/
def training_data : List (String × ℕ) :=
  [ ("This video is amazing! Great content!", 1),
    ("Love it! Very helpful tutorial.", 1),
    ("Excellent work, keep it up!", 1),
    ("Best video I\x27ve seen on this topic", 1),
    ("Thank you for sharing this!", 1),
    ("Very informative and well explained", 1),
    ("Great quality content, subscribed!", 1),
    ("This helped me a lot, thanks!", 1),
    ("Perfect! Exactly what I needed", 1),
    ("Outstanding video, loved it", 1),
    ("Brilliant explanation, thank you!", 1),
    ("This is exactly what I was looking for", 1),
    ("Awesome content, very useful", 1),
    ("Really appreciate this tutorial", 1),
    ("Fantastic work, well done!", 1),
    ("This is terrible, waste of time", 0),
    ("Boring content, don\x27t recommend", 0),
    ("Not helpful at all", 0),
    ("Disliked, very poor quality", 0),
    ("This video is misleading", 0),
    ("Awful content, unsubscribed", 0),
    ("Worst tutorial ever", 0),
    ("Complete waste of my time", 0),
    ("Disappointed with this video", 0),
    ("Horrible, do not watch", 0),
    ("This is useless information", 0),
    ("Terrible quality, very bad", 0),
    ("Not worth watching at all", 0),
    ("I regret watching this", 0),
    ("Poorly made and unhelpful", 0) ]

/-- The four fixed demo inputs of the script (source lines 116-121). -/
def test_comments : List String :=
  [ "This is great!",
    "This is terrible!",
    "Amazing tutorial, thanks!",
    "Waste of time, very bad" ]

/-- Modelled from the spec: scikit-learn's `train_test_split` (an external
dependency, not part of this repository's sources) partitions indices by a
seed-driven shuffle; `n_test = ceil(test_size * n)`, the shuffled index
permutation's first `n_test` entries are the test set and the next
`n_train = n - n_test` entries the training set.  The shuffle permutation is
an explicit argument here.  Returns `(train_indices, test_indices)`. -/
def splitIndices (n : ℕ) (test_size : ℚ) (perm : List ℕ) : List ℕ × List ℕ :=
  let nTest : ℕ := Nat.ceil (test_size * n)
  let nTrain : ℕ := n - nTest
  ((perm.drop nTest).take nTrain, perm.take nTest)

/-- Modelled from the spec: `train_test_split(X, y, test_size, ...)` applied
to parallel text/label sequences, with the shuffle permutation explicit.
Returns `(X_train, X_test, y_train, y_test)` as in source line 68. -/
def train_test_split (X : List String) (y : List ℕ) (test_size : ℚ)
    (perm : List ℕ) : List String × List String × List ℕ × List ℕ :=
  let si := splitIndices X.length test_size perm
  (si.1.map (fun i => X.getD i ""),
   si.2.map (fun i => X.getD i ""),
   si.1.map (fun i => y.getD i 0),
   si.2.map (fun i => y.getD i 0))

/-- C9: splitting the fixed 30-example dataset with test proportion 0.2
produces exactly `ceil(0.2 * 30) = 6` test examples and 24 training
examples, and for any shuffle permutation of the 30 indices the two index
subsets are disjoint and every index appears in exactly one of them. -/
theorem splitIndices_partition_30 (perm : List ℕ)
    (h : perm.Perm (List.range 30)) :
    Nat.ceil ((0.2 : ℚ) * 30) = 6 ∧
    (splitIndices 30 0.2 perm).2.length = 6 ∧
    (splitIndices 30 0.2 perm).1.length = 24 ∧
    (∀ i < 30,
      (i ∈ (splitIndices 30 0.2 perm).1 ∧ i ∉ (splitIndices 30 0.2 perm).2) ∨
      (i ∈ (splitIndices 30 0.2 perm).2 ∧ i ∉ (splitIndices 30 0.2 perm).1)) := by
  have hceil : Nat.ceil ((0.2 : ℚ) * 30) = 6 := by norm_num
  have hlen : perm.length = 30 := by
    simpa using h.length_eq
  have hsplit1 : (splitIndices 30 0.2 perm).1 = perm.drop 6 := by
    simp [splitIndices, hceil, List.take_of_length_le, hlen]
  have hsplit2 : (splitIndices 30 0.2 perm).2 = perm.take 6 := by
    simp [splitIndices, hceil]
  have hnodup : perm.Nodup := h.nodup_iff.mpr (List.nodup_range 30)
  have happ : perm.take 6 ++ perm.drop 6 = perm := List.take_append_drop 6 perm
  have hnodup' : (perm.take 6 ++ perm.drop 6).Nodup := by rw [happ]; exact hnodup
  have hdisj : (perm.take 6).Disjoint (perm.drop 6) := (List.nodup_append.mp hnodup').2.2
  refine ⟨hceil, ?_, ?_, ?_⟩
  · rw [hsplit2]; simp [hlen]
  · rw [hsplit1]; simp [hlen]
  · intro i hi
    have hmem : i ∈ perm := h.mem_iff.mpr (List.mem_range.mpr hi)
    have : i ∈ perm.take 6 ++ perm.drop 6 := by rw [happ]; exact hmem
    rcases List.mem_append.mp this with h6 | h24
    · exact Or.inr ⟨by rw [hsplit2]; exact h6, by rw [hsplit1]; exact fun hc => hdisj h6 hc⟩
    · exact Or.inl ⟨by rw [hsplit1]; exact h24, by rw [hsplit2]; exact fun hc => hdisj hc h24⟩

/-- Witness for C9 at the identity permutation. -/
theorem splitIndices_partition_30_witness :
    Nat.ceil ((0.2 : ℚ) * 30) = 6 ∧
    (splitIndices 30 0.2 (List.range 30)).2.length = 6 ∧
    (splitIndices 30 0.2 (List.range 30)).1.length = 24 ∧
    (∀ i < 30,
      (i ∈ (splitIndices 30 0.2 (List.range 30)).1 ∧
        i ∉ (splitIndices 30 0.2 (List.range 30)).2) ∨
      (i ∈ (splitIndices 30 0.2 (List.range 30)).2 ∧
        i ∉ (splitIndices 30 0.2 (List.range 30)).1)) :=
  splitIndices_partition_30 (List.range 30) (List.Perm.refl _)

/-- Modelled from the spec: with n-gram range `(1, 2)` the candidate terms of
a tokenized document are its unigrams followed by its consecutive-pair
bigrams (joined by a single space), as in scikit-learn's
`TfidfVectorizer(ngram_range=(1, 2))`, an external dependency. -/
def ngrams_1_2 (tokens : List String) : List String :=
  tokens ++ tokens.zipWith (fun a b => a ++ " " ++ b) tokens.tail

/-- Modelled from the spec: document frequency of a term over tokenized
documents — the number of documents whose n-gram candidate list contains
the term. -/
def docFreq (docs : List (List String)) (t : String) : ℕ :=
  (docs.filter (fun d => (ngrams_1_2 d).contains t)).length

/-- Modelled from the spec: total raw occurrence count of a term across all
documents, used by the `max_features` frequency-based selection. -/
def termCount (docs : List (List String)) (t : String) : ℕ :=
  ((docs.flatMap ngrams_1_2).filter (fun s => s == t)).length

/-- Insertion step of an insertion sort by descending key. -/
def insertByKeyDesc {α : Type} (key : α → ℕ) (a : α) : List α → List α
  | [] => [a]
  | b :: t => if key b ≤ key a then a :: b :: t else b :: insertByKeyDesc key a t

/-- Insertion sort by descending key, standing in for the frequency-based
ordering that `max_features` selection applies. -/
def sortByKeyDesc {α : Type} (key : α → ℕ) : List α → List α
  | [] => []
  | a :: t => insertByKeyDesc key a (sortByKeyDesc key t)

theorem insertByKeyDesc_perm {α : Type} (key : α → ℕ) (a : α) (l : List α) :
    (insertByKeyDesc key a l).Perm (a :: l) := by
  induction l with
  | nil => exact List.Perm.refl _
  | cons b t ih =>
      by_cases h : key b ≤ key a
      · simp [insertByKeyDesc, h]
      · simp only [insertByKeyDesc, h, if_false]
        exact (ih.cons b).trans (List.Perm.swap a b t)

theorem sortByKeyDesc_perm {α : Type} (key : α → ℕ) (l : List α) :
    (sortByKeyDesc key l).Perm l := by
  induction l with
  | nil => exact List.Perm.refl _
  | cons a t ih =>
      exact (insertByKeyDesc_perm key a (sortByKeyDesc key t)).trans (ih.cons a)

/-- Modelled from the spec: vocabulary construction of scikit-learn's
`TfidfVectorizer` (external dependency) over tokenized training documents —
collect unigram/bigram candidates, drop terms with document frequency below
`min_df` or above `max_df * n_documents`, then keep at most `max_features`
terms by descending total frequency. -/
def fitVocabulary (docs : List (List String)) (max_features min_df : ℕ)
    (max_df : ℚ) : List String :=
  let candidates := (docs.flatMap ngrams_1_2).dedup
  let bounded := candidates.filter
    (fun t => decide (min_df ≤ docFreq docs t) &&
      decide ((docFreq docs t : ℚ) ≤ max_df * docs.length))
  (sortByKeyDesc (termCount docs) bounded).take max_features

/-- C6: the vocabulary learned from the training documents with the script's
configuration (`max_features=1000`, `min_df=1`, `max_df=0.8`,
`ngram_range=(1,2)`, source lines 76-81) consists only of unigrams/bigrams
occurring in the documents, has at most 1000 entries, and every retained
term has document frequency at least 1 and at most 80% of the documents. -/
theorem fitVocabulary_bounds (docs : List (List String)) (t : String)
    (ht : t ∈ fitVocabulary docs 1000 1 (0.8 : ℚ)) :
    (fitVocabulary docs 1000 1 (0.8 : ℚ)).length ≤ 1000 ∧
    (∃ d ∈ docs, t ∈ ngrams_1_2 d) ∧
    1 ≤ docFreq docs t ∧
    (docFreq docs t : ℚ) ≤ (0.8 : ℚ) * docs.length := by
  have hlen : (fitVocabulary docs 1000 1 (0.8 : ℚ)).length ≤ 1000 := by
    simp only [fitVocabulary]
    exact List.length_take_le 1000 _
  have hmem : t ∈ sortByKeyDesc (termCount docs)
      (((docs.flatMap ngrams_1_2).dedup).filter
        (fun t => decide (1 ≤ docFreq docs t) &&
          decide ((docFreq docs t : ℚ) ≤ (0.8 : ℚ) * docs.length))) :=
    List.mem_of_mem_take ht
  have hmem2 : t ∈ ((docs.flatMap ngrams_1_2).dedup).filter
      (fun t => decide (1 ≤ docFreq docs t) &&
        decide ((docFreq docs t : ℚ) ≤ (0.8 : ℚ) * docs.length)) :=
    (sortByKeyDesc_perm _ _).subset hmem
  have hfilter := List.of_mem_filter hmem2
  have hcand : t ∈ (docs.flatMap ngrams_1_2).dedup := List.mem_of_mem_filter hmem2
  have hflat : t ∈ docs.flatMap ngrams_1_2 := List.mem_dedup.mp hcand
  simp only [Bool.and_eq_true, decide_eq_true_eq] at hfilter
  exact ⟨hlen, List.mem_flatMap.mp hflat, hfilter.1, hfilter.2⟩

/-- Witness for C6 on a concrete two-document corpus. -/
theorem fitVocabulary_bounds_witness :
    (fitVocabulary [["a"], ["b"]] 1000 1 (0.8 : ℚ)).length ≤ 1000 ∧
    (∃ d ∈ [["a"], ["b"]], "a" ∈ ngrams_1_2 d) ∧
    1 ≤ docFreq [["a"], ["b"]] "a" ∧
    (docFreq [["a"], ["b"]] "a" : ℚ) ≤
      (0.8 : ℚ) * ([["a"], ["b"]] : List (List String)).length :=
  fitVocabulary_bounds [["a"], ["b"]] "a" (by
    have e1 : (0.8 : ℚ) * (↑(List.length ([["a"], ["b"]] : List (List String)))) = mkRat 8 5 := by
      norm_num [Rat.mkRat_eq_div]
    simp only [fitVocabulary, e1]
    decide)

/-- Modelled from the spec: scikit-learn's binary
`LogisticRegression.predict_proba` (external dependency) returns the pair
`(P(negative), P(positive)) = (1 - sigmoid z, sigmoid z)` for decision value
`z`.  Writing `e = exp(-z)` (so `e > 0`), the pair is
`(e / (1 + e), 1 / (1 + e))`; the positive quantity `e` is the explicit
argument here, which keeps the definition exact over `ℚ`. -/
def predict_proba (e : ℚ) : ℚ × ℚ :=
  (e / (1 + e), 1 / (1 + e))

/-- Modelled from the spec: scikit-learn's binary `LogisticRegression.predict`
returns class 1 exactly when the decision value is positive, i.e. when
`e = exp(-z) < 1`, and class 0 otherwise. -/
def predict (e : ℚ) : ℕ :=
  if e < 1 then 1 else 0

/-- C4: every class-probability pair returned by the classifier has both
entries non-negative and sums to 1.0 within tolerance `1e-6` (here the sum
is exactly 1). -/
theorem predict_proba_valid (e : ℚ) (h : 0 < e) :
    0 ≤ (predict_proba e).1 ∧ 0 ≤ (predict_proba e).2 ∧
    |(predict_proba e).1 + (predict_proba e).2 - 1| ≤ 1 / 1000000 := by
  have h1 : (0 : ℚ) < 1 + e := by linarith
  refine ⟨div_nonneg h.le h1.le, div_nonneg zero_le_one h1.le, ?_⟩
  have hsum : (predict_proba e).1 + (predict_proba e).2 = 1 := by
    simp only [predict_proba]
    rw [div_add_div_same, show e + 1 = 1 + e from add_comm e 1]
    exact div_self h1.ne'
  rw [hsum]
  norm_num

/-- Witness for C4 at `e = 1` (decision value 0, probabilities (1/2, 1/2)). -/
theorem predict_proba_valid_witness :
    0 ≤ (predict_proba 1).1 ∧ 0 ≤ (predict_proba 1).2 ∧
    |(predict_proba 1).1 + (predict_proba 1).2 - 1| ≤ 1 / 1000000 :=
  predict_proba_valid 1 (by norm_num)

/-- C10: the confidence printed by the demo logic — the predicted class's
probability × 100, i.e. `probability[prediction] * 100` (source lines
126-130) — is at least 50.0 for every input, because the predicted class is
the larger entry of a probability pair summing to 1 (class 0 on ties). -/
theorem confidence_at_least_50 (e : ℚ) (h : 0 < e) :
    50 ≤ (if predict e = 1 then (predict_proba e).2 else (predict_proba e).1) * 100 := by
  have h1 : (0 : ℚ) < 1 + e := by linarith
  by_cases he : e < 1
  · simp only [predict, predict_proba, he, if_true]
    rw [div_mul_eq_mul_div, le_div_iff₀ h1]
    linarith
  · simp only [predict, predict_proba, he, if_false]
    norm_num
    rw [div_mul_eq_mul_div, le_div_iff₀ h1]
    push_neg at he
    linarith

/-- Witness for C10 at `e = 2` (negative prediction, confidence 200/3). -/
theorem confidence_at_least_50_witness :
    50 ≤ (if predict 2 = 1 then (predict_proba 2).2 else (predict_proba 2).1) * 100 :=
  confidence_at_least_50 2 (by norm_num)

/-- Modelled from the spec: scikit-learn's `accuracy_score` (external
dependency) — the fraction of positions where true and predicted labels
agree. -/
def accuracy_score (y_true y_pred : List ℕ) : ℚ :=
  (((y_true.zip y_pred).filter (fun p => p.1 == p.2)).length : ℚ) / y_true.length

/-- Modelled from the spec: entry `(i, j)` of the confusion matrix — the
number of positions with true class `i` and predicted class `j`. -/
def confusionEntry (y_true y_pred : List ℕ) (i j : ℕ) : ℕ :=
  ((y_true.zip y_pred).filter (fun p => p.1 == i && p.2 == j)).length

/-- Modelled from the spec: scikit-learn's `confusion_matrix` for the binary
label set, rows = true class, columns = predicted class, in the fixed class
order `[negative, positive]`. -/
def confusion_matrix (y_true y_pred : List ℕ) : List (List ℕ) :=
  [[confusionEntry y_true y_pred 0 0, confusionEntry y_true y_pred 0 1],
   [confusionEntry y_true y_pred 1 0, confusionEntry y_true y_pred 1 1]]

theorem binary_match_count (l : List (ℕ × ℕ))
    (h : ∀ p ∈ l, p.1 ≤ 1 ∧ p.2 ≤ 1) :
    (l.filter (fun p => p.1 == p.2)).length =
    (l.filter (fun p => p.1 == 0 && p.2 == 0)).length +
    (l.filter (fun p => p.1 == 1 && p.2 == 1)).length := by
  induction l with
  | nil => rfl
  | cons a t ih =>
      have ha := h a (List.mem_cons_self a t)
      have ih' := ih (fun p hp => h p (List.mem_cons_of_mem a hp))
      obtain ⟨a1, a2⟩ := a
      obtain ⟨ha1, ha2⟩ := ha
      interval_cases a1 <;> interval_cases a2 <;>
        simp [List.filter_cons, ih'] <;> omega

/-- C5: the reported accuracy equals
`(confusion[0][0] + confusion[1][1]) / total_test_examples` for the same
labels and predictions, with binary labels in the fixed class order
`[negative, positive]` (source lines 98-106). -/
theorem accuracy_eq_confusion_diagonal (y_true y_pred : List ℕ)
    (h1 : ∀ a ∈ y_true, a ≤ 1) (h2 : ∀ a ∈ y_pred, a ≤ 1) :
    accuracy_score y_true y_pred =
      ((((confusion_matrix y_true y_pred).getD 0 []).getD 0 0 : ℚ) +
        (((confusion_matrix y_true y_pred).getD 1 []).getD 1 0 : ℚ)) / y_true.length := by
  have hz : ∀ p ∈ y_true.zip y_pred, p.1 ≤ 1 ∧ p.2 ≤ 1 := by
    intro p hp
    obtain ⟨hp1, hp2⟩ := List.of_mem_zip hp
    exact ⟨h1 p.1 hp1, h2 p.2 hp2⟩
  have hcount := binary_match_count (y_true.zip y_pred) hz
  simp only [confusion_matrix, List.getD_cons_zero, List.getD_cons_succ]
  simp only [accuracy_score, confusionEntry, hcount]
  push_cast
  ring

/-- Witness for C5 on concrete label lists `[0, 1, 1]` vs `[0, 1, 0]`. -/
theorem accuracy_eq_confusion_diagonal_witness :
    accuracy_score [0, 1, 1] [0, 1, 0] =
      ((((confusion_matrix [0, 1, 1] [0, 1, 0]).getD 0 []).getD 0 0 : ℚ) +
        (((confusion_matrix [0, 1, 1] [0, 1, 0]).getD 1 []).getD 1 0 : ℚ)) /
          ([0, 1, 1] : List ℕ).length :=
  accuracy_eq_confusion_diagonal [0, 1, 1] [0, 1, 0] (by decide) (by decide)

/-- Python exception values relevant to the script: `ImportError` (the only
one the script handles, source line 152) and any other error. -/
inductive PyErr where
  | importError : PyErr
  | other : String → PyErr

/-- Observable effects of the script, in chronological order: console
prints, vectorizer fits, vectorizer transforms (recording the fitted state
used), and files written to disk. -/
inductive Effect (V : Type) where
  | printE : String → Effect V
  | vfitE : List String → Effect V
  | vtransformE : V → List String → Effect V
  | dumpE : String → Effect V

/-- Two-digit zero padding for the fractional part of a percent format. -/
def pad2 (k : ℤ) : String :=
  if k < 10 then "0" ++ toString k else toString k

/-- Python's fixed-point format `:.1f` (one decimal place), modelled over
`ℚ` with round-half-up. -/
def fmtFix1 (q : ℚ) : String :=
  let t : ℤ := Int.floor (q * 10 + 1 / 2)
  toString (t / 10) ++ "." ++ toString (t % 10)

/-- Python's percent format `:.2%` (value × 100 with two decimal places and
a trailing percent sign), modelled over `ℚ` with round-half-up. -/
def fmtPercent2 (q : ℚ) : String :=
  let t : ℤ := Int.floor (q * 10000 + 1 / 2)
  toString (t / 100) ++ "." ++ pad2 (t % 100) ++ "%"

/-- Rendering of the printed 2×2 confusion matrix grid. -/
def cmString (m : List (List ℕ)) : String :=
  "[" ++ String.intercalate "\n "
    (m.map (fun r => "[" ++ String.intercalate " " (r.map toString) ++ "]")) ++ "]"

/-- Opaque semantics of the external libraries the script calls.  `V` is the
fitted-vectorizer state type, `M` the fitted-model type.  `permOf n seed
entropy` is the shuffle permutation `train_test_split` draws (depending on
ambient entropy only when it may); `importSkl2onnx` is the outcome of
`from skl2onnx import ...` (`none` = available) and `convert_sklearn` the
outcome of conversion plus serialization for a given feature count. -/
structure Env (V M : Type) where
  permOf : ℕ → Option ℕ → ℕ → List ℕ
  vfitTransform : List String → V × List (List ℚ)
  vtransform : V → List String → List (List ℚ)
  fitLR : ℚ → ℕ → Option ℕ → List (List ℚ) → List ℕ → M
  predictRow : M → List ℚ → ℕ
  predictProbaRow : M → List ℚ → ℚ × ℚ
  classification_report : List ℕ → List ℕ → String
  importSkl2onnx : Option PyErr
  convert_sklearn : M → ℕ → Option PyErr

/-- The parallel text sequence `df['text']` of the script. -/
def scriptTexts : List String := training_data.map Prod.fst

/-- The parallel label sequence `df['label']` of the script. -/
def scriptLabels : List ℕ := training_data.map Prod.snd

/-- The shuffle permutation of the script's `train_test_split` call with
`random_state=42` (source lines 68-70). -/
def scriptPerm {V M : Type} (env : Env V M) (entropy : ℕ) : List ℕ :=
  env.permOf scriptTexts.length (some 42) entropy

/-- The script's split `(X_train, X_test, y_train, y_test)` as a function of
the shuffle permutation. -/
def splitOf (perm : List ℕ) : List String × List String × List ℕ × List ℕ :=
  train_test_split scriptTexts scriptLabels 0.2 perm

/-- `vectorizer.fit_transform(X_train)` — fitted state plus training
matrix. -/
def vfitOf {V M : Type} (env : Env V M) (perm : List ℕ) : V × List (List ℚ) :=
  env.vfitTransform (splitOf perm).1

/-- The fitted vectorizer state of the run. -/
def vstateOf {V M : Type} (env : Env V M) (perm : List ℕ) : V :=
  (vfitOf env perm).1

/-- `X_train_tfidf`, the training feature matrix. -/
def trainMatrixOf {V M : Type} (env : Env V M) (perm : List ℕ) : List (List ℚ) :=
  (vfitOf env perm).2

/-- `X_test_tfidf = vectorizer.transform(X_test)`. -/
def testMatrixOf {V M : Type} (env : Env V M) (perm : List ℕ) : List (List ℚ) :=
  env.vtransform (vstateOf env perm) (splitOf perm).2.1

/-- `X_train_tfidf.shape[1]`, the feature dimensionality handed to the ONNX
export (source line 141). -/
def nFeaturesOf {V M : Type} (env : Env V M) (perm : List ℕ) : ℕ :=
  ((trainMatrixOf env perm).getD 0 []).length

/-- The fitted classifier: `LogisticRegression(C=1.0, max_iter=1000,
random_state=42)` fitted on the training matrix and labels (source lines
89-95). -/
def modelOf {V M : Type} (env : Env V M) (perm : List ℕ) : M :=
  env.fitLR 1.0 1000 (some 42) (trainMatrixOf env perm) (splitOf perm).2.2.1

/-- `y_pred = model.predict(X_test_tfidf)`. -/
def yPredOf {V M : Type} (env : Env V M) (perm : List ℕ) : List ℕ :=
  (testMatrixOf env perm).map (env.predictRow (modelOf env perm))

/-- The demo loop's sentiment/confidence print for one comment: transform
the single comment through the fitted vectorizer, take row 0, predict the
label and the associated probability pair, index the pair by the predicted
class, scale by 100 and format with one decimal (source lines 124-133). -/
def demoSentimentLine {V M : Type} (env : Env V M) (v : V) (m : M) (c : String) : Effect V :=
  let row := (env.vtransform v [c]).getD 0 []
  let prediction := env.predictRow m row
  let probability := env.predictProbaRow m row
  let sentiment := if prediction = 1 then "Positive" else "Negative"
  let confidence := (if prediction = 1 then probability.2 else probability.1) * 100
  Effect.printE ("  Sentiment: " ++ sentiment ++ " (Confidence: " ++ fmtFix1 confidence ++ "%)\n")

/-- The three effects of one demo-loop iteration (source lines 124-133). -/
def demoEffectsFor {V M : Type} (env : Env V M) (v : V) (m : M) (c : String) : List (Effect V) :=
  [Effect.vtransformE v [c],
   Effect.printE ("Comment: \x27" ++ c ++ "\x27"),
   demoSentimentLine env v m c]

/-- The ONNX export step (source lines 135-154): a `try` block importing the
converter, converting and writing `sentiment_model.onnx`, whose
`except ImportError` handler prints the two instructional fallback lines;
returns the step's effects and its uncaught error, if any. -/
def exportStep {V M : Type} (env : Env V M) (m : M) (n_features : ℕ) :
    List (Effect V) × Option PyErr :=
  let body : List (Effect V) × Option PyErr :=
    match env.importSkl2onnx with
    | some e => ([], some e)
    | none =>
        match env.convert_sklearn m n_features with
        | some e => ([], some e)
        | none =>
            ([Effect.dumpE "sentiment_model.onnx",
              Effect.printE "ONNX model saved to sentiment_model.onnx",
              Effect.printE "This model can be used with ML.NET TensorFlow integration"],
             none)
  match body with
  | (effs, some PyErr.importError) =>
      (effs ++
        [Effect.printE "\nNote: skl2onnx not installed. To export ONNX model, run:",
         Effect.printE "pip install skl2onnx onnxmltools"],
       none)
  | (effs, e) => (effs, e)

/-- All effects of the run up to (and excluding) the export step, in the
script's order (source lines 64-133). -/
def mainEffectsOf {V M : Type} (env : Env V M) (perm : List ℕ) : List (Effect V) :=
  [Effect.printE ("Training samples: " ++ toString (splitOf perm).1.length),
   Effect.printE ("Test samples: " ++ toString (splitOf perm).2.1.length),
   Effect.vfitE (splitOf perm).1,
   Effect.vtransformE (vstateOf env perm) (splitOf perm).2.1,
   Effect.printE ("\nFeature vector shape: (" ++ toString (trainMatrixOf env perm).length
     ++ ", " ++ toString (nFeaturesOf env perm) ++ ")"),
   Effect.printE ("\nModel Accuracy: "
     ++ fmtPercent2 (accuracy_score (splitOf perm).2.2.2 (yPredOf env perm))),
   Effect.printE "\nClassification Report:",
   Effect.printE (env.classification_report (splitOf perm).2.2.2 (yPredOf env perm)),
   Effect.printE "\nConfusion Matrix:",
   Effect.printE (cmString (confusion_matrix (splitOf perm).2.2.2 (yPredOf env perm))),
   Effect.dumpE "sentiment_model.pkl",
   Effect.dumpE "sentiment_vectorizer.pkl",
   Effect.printE "\nModel saved to sentiment_model.pkl",
   Effect.printE "Vectorizer saved to sentiment_vectorizer.pkl",
   Effect.printE "\n--- Test Predictions ---"]
  ++ test_comments.flatMap (demoEffectsFor env (vstateOf env perm) (modelOf env perm))

/-- Result of one run: the chronological effect trace, the uncaught error
(`none` = successful exit), and the evaluated values the claims refer to. -/
structure RunResult (V : Type) where
  effects : List (Effect V)
  uncaught : Option PyErr
  X_train : List String
  X_test : List String
  y_train : List ℕ
  y_test : List ℕ
  accuracy : ℚ
  confusion : List (List ℕ)

/-- The whole run of the script as a function of the shuffle permutation. -/
def runFromPerm {V M : Type} (env : Env V M) (perm : List ℕ) : RunResult V :=
  { effects := mainEffectsOf env perm
      ++ (exportStep env (modelOf env perm) (nFeaturesOf env perm)).1,
    uncaught := (exportStep env (modelOf env perm) (nFeaturesOf env perm)).2,
    X_train := (splitOf perm).1,
    X_test := (splitOf perm).2.1,
    y_train := (splitOf perm).2.2.1,
    y_test := (splitOf perm).2.2.2,
    accuracy := accuracy_score (splitOf perm).2.2.2 (yPredOf env perm),
    confusion := confusion_matrix (splitOf perm).2.2.2 (yPredOf env perm) }

/-- One invocation of the script: ambient entropy enters only through the
seeded shuffle permutation (`random_state=42`, source line 69). -/
def runScript {V M : Type} (env : Env V M) (entropy : ℕ) : RunResult V :=
  runFromPerm env (scriptPerm env entropy)

/-- Recognizer for vectorizer events (fit or transform) in a trace. -/
def isVectorizerEvent {V : Type} : Effect V → Bool
  | Effect.vfitE _ => true
  | Effect.vtransformE _ _ => true
  | _ => false

/-- Recognizer for vectorizer fit events in a trace. -/
def isFitEvent {V : Type} : Effect V → Bool
  | Effect.vfitE _ => true
  | _ => false

theorem exportStep_filter_vect {V M : Type} (env : Env V M) (m : M) (k : ℕ) :
    (exportStep env m k).1.filter isVectorizerEvent = [] := by
  simp only [exportStep]
  rcases env.importSkl2onnx with _ | e
  · rcases env.convert_sklearn m k with _ | e'
    · rfl
    · rcases e' with _ | msg <;> rfl
  · rcases e with _ | msg <;> rfl

theorem exportStep_filter_fit {V M : Type} (env : Env V M) (m : M) (k : ℕ) :
    (exportStep env m k).1.filter isFitEvent = [] := by
  simp only [exportStep]
  rcases env.importSkl2onnx with _ | e
  · rcases env.convert_sklearn m k with _ | e'
    · rfl
    · rcases e' with _ | msg <;> rfl
  · rcases e with _ | msg <;> rfl

/-- C7: the vectorizer-call trace of a run is exactly one fit — on the
training texts — followed by transforms that all reuse the state returned by
that single fit: on the test texts and then on each of the four demo inputs.
In particular the number of fit events is one, so the vectorizer is never
refit on test or demo data. -/
theorem vectorizer_fit_once {V M : Type} (env : Env V M) (entropy : ℕ) :
    (runScript env entropy).effects.filter isVectorizerEvent =
      [Effect.vfitE (splitOf (scriptPerm env entropy)).1,
       Effect.vtransformE (vstateOf env (scriptPerm env entropy))
         (splitOf (scriptPerm env entropy)).2.1,
       Effect.vtransformE (vstateOf env (scriptPerm env entropy)) ["This is great!"],
       Effect.vtransformE (vstateOf env (scriptPerm env entropy)) ["This is terrible!"],
       Effect.vtransformE (vstateOf env (scriptPerm env entropy)) ["Amazing tutorial, thanks!"],
       Effect.vtransformE (vstateOf env (scriptPerm env entropy)) ["Waste of time, very bad"]] ∧
    (runScript env entropy).effects.filter isFitEvent =
      [Effect.vfitE (splitOf (scriptPerm env entropy)).1] := by
  constructor
  · show (mainEffectsOf env (scriptPerm env entropy)
      ++ (exportStep env (modelOf env (scriptPerm env entropy))
        (nFeaturesOf env (scriptPerm env entropy))).1).filter isVectorizerEvent = _
    rw [List.filter_append, exportStep_filter_vect, List.append_nil]
    rfl
  · show (mainEffectsOf env (scriptPerm env entropy)
      ++ (exportStep env (modelOf env (scriptPerm env entropy))
        (nFeaturesOf env (scriptPerm env entropy))).1).filter isFitEvent = _
    rw [List.filter_append, exportStep_filter_fit, List.append_nil]
    rfl

/-- C2: if the optional export converter import fails with `ImportError`,
the failure is caught: the run's effect trace is the pre-export trace —
which contains both `.pkl` dump effects — followed by exactly the two
instructional fallback prints, and the run exits successfully; an import
failure other than `ImportError`, or a conversion failure, is not handled
and propagates as the run's uncaught error. -/
theorem export_failure_handling {V M : Type} (env : Env V M) (entropy : ℕ) :
    (env.importSkl2onnx = some PyErr.importError →
      (runScript env entropy).uncaught = none ∧
      (runScript env entropy).effects =
        mainEffectsOf env (scriptPerm env entropy) ++
          [Effect.printE "\nNote: skl2onnx not installed. To export ONNX model, run:",
           Effect.printE "pip install skl2onnx onnxmltools"] ∧
      Effect.dumpE "sentiment_model.pkl" ∈ mainEffectsOf env (scriptPerm env entropy) ∧
      Effect.dumpE "sentiment_vectorizer.pkl" ∈ mainEffectsOf env (scriptPerm env entropy)) ∧
    (∀ msg, env.importSkl2onnx = some (PyErr.other msg) →
      (runScript env entropy).uncaught = some (PyErr.other msg)) ∧
    (∀ msg, env.importSkl2onnx = none →
      env.convert_sklearn (modelOf env (scriptPerm env entropy))
        (nFeaturesOf env (scriptPerm env entropy)) = some (PyErr.other msg) →
      (runScript env entropy).uncaught = some (PyErr.other msg)) := by
  refine ⟨fun h => ?_, fun msg h => ?_, fun msg h1 h2 => ?_⟩
  · refine ⟨?_, ?_, ?_, ?_⟩
    · show (exportStep env (modelOf env (scriptPerm env entropy))
        (nFeaturesOf env (scriptPerm env entropy))).2 = none
      simp only [exportStep, h]
    · show mainEffectsOf env (scriptPerm env entropy)
        ++ (exportStep env (modelOf env (scriptPerm env entropy))
          (nFeaturesOf env (scriptPerm env entropy))).1 = _
      simp only [exportStep, h]
      rfl
    · simp [mainEffectsOf]
    · simp [mainEffectsOf]
  · show (exportStep env (modelOf env (scriptPerm env entropy))
      (nFeaturesOf env (scriptPerm env entropy))).2 = some (PyErr.other msg)
    simp only [exportStep, h]
  · show (exportStep env (modelOf env (scriptPerm env entropy))
      (nFeaturesOf env (scriptPerm env entropy))).2 = some (PyErr.other msg)
    simp only [exportStep, h1, h2]

/-- C3: with the seed fixed at 42, two invocations of the whole pipeline
agree on the split membership, the accuracy value and the confusion matrix,
for any library whose seeded shuffle is independent of ambient entropy
(the documented `random_state` contract). -/
theorem run_deterministic_seed {V M : Type} (env : Env V M)
    (hperm : ∀ n s e1 e2, env.permOf n (some s) e1 = env.permOf n (some s) e2)
    (e1 e2 : ℕ) :
    (runScript env e1).X_train = (runScript env e2).X_train ∧
    (runScript env e1).X_test = (runScript env e2).X_test ∧
    (runScript env e1).y_train = (runScript env e2).y_train ∧
    (runScript env e1).y_test = (runScript env e2).y_test ∧
    (runScript env e1).accuracy = (runScript env e2).accuracy ∧
    (runScript env e1).confusion = (runScript env e2).confusion := by
  have h : runScript env e1 = runScript env e2 := by
    unfold runScript scriptPerm
    rw [hperm scriptTexts.length 42 e1 e2]
  exact ⟨by rw [h], by rw [h], by rw [h], by rw [h], by rw [h], by rw [h]⟩

/-- C8: for each of the four fixed demo sentences the trace contains the
transform of that single sentence through the fitted vectorizer state and
the printed line built by `demoSentimentLine`: predicted sentiment label
plus `(Confidence: p%)` where the percentage is the predicted class's
probability × 100 formatted with one decimal place. -/
theorem demo_prediction_printed {V M : Type} (env : Env V M) (entropy : ℕ)
    (c : String) (hc : c ∈ test_comments) :
    Effect.vtransformE (vstateOf env (scriptPerm env entropy)) [c]
      ∈ (runScript env entropy).effects ∧
    demoSentimentLine env (vstateOf env (scriptPerm env entropy))
      (modelOf env (scriptPerm env entropy)) c ∈ (runScript env entropy).effects := by
  have hmem : ∀ x ∈ demoEffectsFor env (vstateOf env (scriptPerm env entropy))
      (modelOf env (scriptPerm env entropy)) c, x ∈ (runScript env entropy).effects := by
    intro x hx
    show x ∈ mainEffectsOf env (scriptPerm env entropy)
      ++ (exportStep env (modelOf env (scriptPerm env entropy))
        (nFeaturesOf env (scriptPerm env entropy))).1
    apply List.mem_append_left
    unfold mainEffectsOf
    apply List.mem_append_right
    exact List.mem_flatMap.mpr ⟨c, hc, hx⟩
  exact ⟨hmem _ (by simp [demoEffectsFor]), hmem _ (by simp [demoEffectsFor])⟩

/-- Concrete library environment used to instantiate the hypotheses of the
pipeline theorems: deterministic identity shuffle, trivial vectorizer and
classifier, and a missing export converter. -/
def envW : Env (List String) Unit where
  permOf := fun n _ _ => List.range n
  vfitTransform := fun docs => (docs, [[1]])
  vtransform := fun _ docs => docs.map (fun _ => [1])
  fitLR := fun _ _ _ _ _ => ()
  predictRow := fun _ _ => 1
  predictProbaRow := fun _ _ => (1/4, 3/4)
  classification_report := fun _ _ => "report"
  importSkl2onnx := some PyErr.importError
  convert_sklearn := fun _ _ => none

/-- Variant of `envW` whose import fails with a non-`ImportError` error. -/
def envW2 : Env (List String) Unit :=
  { envW with importSkl2onnx := some (PyErr.other "boom") }

/-- Variant of `envW` whose import succeeds but whose conversion fails. -/
def envW3 : Env (List String) Unit :=
  { envW with importSkl2onnx := none,
              convert_sklearn := fun _ _ => some (PyErr.other "conv") }

/-- Witness for C2 on the concrete environments. -/
theorem export_failure_handling_witness :
    ((runScript envW 0).uncaught = none ∧
     (runScript envW 0).effects =
       mainEffectsOf envW (scriptPerm envW 0) ++
         [Effect.printE "\nNote: skl2onnx not installed. To export ONNX model, run:",
          Effect.printE "pip install skl2onnx onnxmltools"] ∧
     Effect.dumpE "sentiment_model.pkl" ∈ mainEffectsOf envW (scriptPerm envW 0) ∧
     Effect.dumpE "sentiment_vectorizer.pkl" ∈ mainEffectsOf envW (scriptPerm envW 0)) ∧
    (runScript envW2 0).uncaught = some (PyErr.other "boom") ∧
    (runScript envW3 0).uncaught = some (PyErr.other "conv") :=
  ⟨(export_failure_handling envW 0).1 rfl,
   (export_failure_handling envW2 0).2.1 "boom" rfl,
   (export_failure_handling envW3 0).2.2 "conv" rfl rfl⟩

/-- Witness for C3 on the concrete deterministic environment, entropies 0
and 1. -/
theorem run_deterministic_seed_witness :
    (runScript envW 0).X_train = (runScript envW 1).X_train ∧
    (runScript envW 0).X_test = (runScript envW 1).X_test ∧
    (runScript envW 0).y_train = (runScript envW 1).y_train ∧
    (runScript envW 0).y_test = (runScript envW 1).y_test ∧
    (runScript envW 0).accuracy = (runScript envW 1).accuracy ∧
    (runScript envW 0).confusion = (runScript envW 1).confusion :=
  run_deterministic_seed envW (fun _ _ _ _ => rfl) 0 1

/-- Witness for C8 at the first demo sentence. -/
theorem demo_prediction_printed_witness :
    Effect.vtransformE (vstateOf envW (scriptPerm envW 0)) ["This is great!"]
      ∈ (runScript envW 0).effects ∧
    demoSentimentLine envW (vstateOf envW (scriptPerm envW 0))
      (modelOf envW (scriptPerm envW 0)) "This is great!" ∈ (runScript envW 0).effects :=
  demo_prediction_printed envW 0 "This is great!" (by decide)

/-- Witness for C7: the vectorizer-call trace evaluated on the concrete
environment. -/
theorem vectorizer_fit_once_witness :
    (runScript envW 0).effects.filter isVectorizerEvent =
      [Effect.vfitE (splitOf (scriptPerm envW 0)).1,
       Effect.vtransformE (vstateOf envW (scriptPerm envW 0)) (splitOf (scriptPerm envW 0)).2.1,
       Effect.vtransformE (vstateOf envW (scriptPerm envW 0)) ["This is great!"],
       Effect.vtransformE (vstateOf envW (scriptPerm envW 0)) ["This is terrible!"],
       Effect.vtransformE (vstateOf envW (scriptPerm envW 0)) ["Amazing tutorial, thanks!"],
       Effect.vtransformE (vstateOf envW (scriptPerm envW 0)) ["Waste of time, very bad"]] ∧
    (runScript envW 0).effects.filter isFitEvent =
      [Effect.vfitE (splitOf (scriptPerm envW 0)).1] :=
  vectorizer_fit_once envW 0
